import Mathlib

/-!
Verification of the expense-tracker service (FastAPI + SQLAlchemy) via a
shallow embedding. The data model follows `app/models/*.py`, the request and
response shapes follow `app/schemas/*.py`, and each operation is a direct
translation of the corresponding handler in `app/routers/*.py`. The database
is modelled as in-memory lists kept in insertion order (the store's natural
retrieval order); machine floats for amounts are modelled as rationals, and
dates as naturals ordered chronologically. Password hashing, password
verification, and token creation/decoding live in `app/utils/security.py`,
which is not part of the embedded sources, so the operations are
parameterized over those functions.
-/

namespace ExpenseTracker

/-- Row of the `users` table (`app/models/user.py`); timestamps omitted. -/
structure User where
  id : Int
  email : String
  username : String
  hashed_password : String
  is_active : Bool
  is_verified : Bool
deriving DecidableEq

/-- Row of the `categories` table (`app/models/category.py`); timestamps omitted. -/
structure Category where
  id : Int
  name : String
  description : Option String
  icon : Option String
  color : Option String
  is_active : Bool
deriving DecidableEq

/-- Row of the `expenses` table (`app/models/expense.py`); timestamps omitted. -/
structure Expense where
  id : Int
  amount : Rat
  category_id : Int
  description : String
  date : Nat
  notes : Option String
  user_id : Int
deriving DecidableEq

/-- The relational store: the three tables in natural (insertion) order plus
the autoincrement counters for primary keys. -/
structure Store where
  users : List User
  categories : List Category
  expenses : List Expense
  nextUserId : Int
  nextCategoryId : Int
  nextExpenseId : Int
deriving DecidableEq

/-- A raised `HTTPException`: status code, detail message and extra headers. -/
structure HTTPError where
  status : Nat
  detail : String
  headers : List (String × String)
deriving DecidableEq

/-- Request body of `POST /auth/register` (`UserRegister` in `app/schemas/auth.py`). -/
structure UserRegister where
  email : String
  username : String
  password : String
deriving DecidableEq

/-- Request body of `POST /auth/login` (`UserLogin` in `app/schemas/auth.py`). -/
structure UserLogin where
  email : String
  password : String
deriving DecidableEq

/-- Public user view (`UserResponse` in `app/schemas/auth.py`): it has no
field for the password hash; timestamps omitted. -/
structure UserResponse where
  id : Int
  email : String
  username : String
  is_active : Bool
  is_verified : Bool
deriving DecidableEq

/-- Decoded JWT claim set: the fields the handlers read via `payload.get`,
each `none` when absent from the payload dictionary. -/
structure TokenPayload where
  sub : Option String
  email : Option String
  token_type : Option String
deriving DecidableEq

/-- Response body of login/refresh (`Token` in `app/schemas/auth.py`). -/
structure Token where
  access_token : String
  refresh_token : String
  token_type : String
  expires_in : Nat
deriving DecidableEq

/-- Request body of `POST /categories` (`CategoryCreate` in `app/schemas/expense.py`). -/
structure CategoryCreate where
  name : String
  description : Option String
  icon : Option String
  color : Option String
deriving DecidableEq

/-- Request body of `POST /expenses` (`ExpenseCreate` in `app/schemas/expense.py`). -/
structure ExpenseCreate where
  amount : Rat
  category_id : Int
  description : String
  date : Nat
  notes : Option String
deriving DecidableEq

/-- Request body of `PUT /expenses/{id}` (`ExpenseUpdate` in
`app/schemas/expense.py`): every field optional; `some` means the field was
supplied in the partial body (pydantic `exclude_unset` semantics). `notes` is
itself nullable, hence the nested option. -/
structure ExpenseUpdate where
  amount : Option Rat
  category_id : Option Int
  description : Option String
  date : Option Nat
  notes : Option (Option String)
deriving DecidableEq

/-- `settings.ACCESS_TOKEN_EXPIRE_MINUTES` default (`app/config.py`). -/
def ACCESS_TOKEN_EXPIRE_MINUTES : Nat := 30

/-- The 401 body shared by the missing-user and wrong-password branches of
`login` (`app/routers/auth.py`). -/
def incorrectCredentialsErr : HTTPError :=
  ⟨401, "Incorrect email or password", [("WWW-Authenticate", "Bearer")]⟩

/-- The 403 body for an inactive account (`app/routers/auth.py`). -/
def inactiveAccountErr : HTTPError := ⟨403, "User account is inactive", []⟩

/-- The 404 body for a missing or foreign expense (`app/routers/expense.py`). -/
def expenseNotFoundErr : HTTPError := ⟨404, "Expense not found", []⟩

/-- `register` handler (`app/routers/auth.py` lines 30-76). `hash` stands for
`get_password_hash` from `app/utils/security.py` (not among the embedded
sources). Returns the response together with the resulting store. -/
def register (hash : String → String) (S : Store) (d : UserRegister) :
    Except HTTPError UserResponse × Store :=
  match S.users.find? (fun u => u.email == d.email) with
  | some _ => (.error ⟨400, "Email already registered", []⟩, S)
  | none =>
    match S.users.find? (fun u => u.username == d.username) with
    | some _ => (.error ⟨400, "Username already taken", []⟩, S)
    | none =>
      let new_user : User :=
        ⟨S.nextUserId, d.email, d.username, hash d.password, true, false⟩
      (.ok ⟨new_user.id, new_user.email, new_user.username,
            new_user.is_active, new_user.is_verified⟩,
       { S with users := S.users ++ [new_user], nextUserId := S.nextUserId + 1 })

/-- `login` handler (`app/routers/auth.py` lines 79-125). `verify` stands for
`verify_password`, and `mkAccess`/`mkRefresh` for `create_access_token` /
`create_refresh_token` applied to the claim set `{sub, email}`, all from
`app/utils/security.py` (not among the embedded sources). -/
def login (verify : String → String → Bool)
    (mkAccess mkRefresh : String → String → String)
    (S : Store) (d : UserLogin) : Except HTTPError Token :=
  match S.users.find? (fun u => u.email == d.email) with
  | none => .error incorrectCredentialsErr
  | some user =>
    if !verify d.password user.hashed_password then
      .error incorrectCredentialsErr
    else if !user.is_active then
      .error inactiveAccountErr
    else
      .ok ⟨mkAccess (toString user.id) user.email,
           mkRefresh (toString user.id) user.email,
           "bearer", ACCESS_TOKEN_EXPIRE_MINUTES * 60⟩

/-- `refresh_token` handler (`app/routers/auth.py` lines 128-207). `decode`
stands for `decode_token` from `app/utils/security.py` (not among the
embedded sources): it yields the claim set of a well-formed, correctly
signed, unexpired token and `none` otherwise. -/
def refreshToken (decode : String → Option TokenPayload)
    (mkAccess mkRefresh : String → String → String)
    (S : Store) (tok : String) : Except HTTPError Token :=
  match decode tok with
  | none => .error ⟨401, "Invalid refresh token", [("WWW-Authenticate", "Bearer")]⟩
  | some payload =>
    if payload.token_type != some "refresh" then
      .error ⟨401, "Invalid token type. Refresh token required.",
              [("WWW-Authenticate", "Bearer")]⟩
    else
      match payload.sub with
      | none => .error ⟨401, "Invalid token payload", [("WWW-Authenticate", "Bearer")]⟩
      | some user_id_str =>
        match user_id_str.toInt? with
        | none => .error ⟨401, "Invalid token payload", [("WWW-Authenticate", "Bearer")]⟩
        | some user_id =>
          match S.users.find? (fun u => u.id == user_id) with
          | none => .error ⟨401, "User not found", [("WWW-Authenticate", "Bearer")]⟩
          | some user =>
            if !user.is_active then
              .error inactiveAccountErr
            else
              .ok ⟨mkAccess (toString user.id) user.email,
                   mkRefresh (toString user.id) user.email,
                   "bearer", ACCESS_TOKEN_EXPIRE_MINUTES * 60⟩

/-- `create_category` handler (`app/routers/category.py` lines 16-59). -/
def create_category (S : Store) (d : CategoryCreate) :
    Except HTTPError Category × Store :=
  match S.categories.find? (fun c => c.name == d.name) with
  | some _ => (.error ⟨400, "Category " ++ d.name ++ " already exists", []⟩, S)
  | none =>
    let new_category : Category :=
      ⟨S.nextCategoryId, d.name, d.description, d.icon, d.color, true⟩
    (.ok new_category,
     { S with categories := S.categories ++ [new_category],
              nextCategoryId := S.nextCategoryId + 1 })

/-- Stable insertion step of a sort: `skip x a` says the pending element `a`
belongs after the already placed `x`. -/
def insertSorted {α : Type} (skip : α → α → Bool) (a : α) : List α → List α
  | [] => [a]
  | x :: xs => if skip x a then x :: insertSorted skip a xs else a :: x :: xs

/-- Stable insertion sort, used to model SQL `ORDER BY` on the rows in
natural retrieval order. -/
def sortBy {α : Type} (skip : α → α → Bool) : List α → List α
  | [] => []
  | x :: xs => insertSorted skip x (sortBy skip xs)

/-- Sort categories by name ascending (`query.order_by(Category.name)`). -/
def sortByName (l : List Category) : List Category :=
  sortBy (fun x c => decide (x.name ≤ c.name)) l

/-- `get_categories` handler (`app/routers/category.py` lines 62-88). -/
def get_categories (S : Store) (include_inactive : Bool) : List Category :=
  let q := S.categories
  let q := if !include_inactive then q.filter (fun c => c.is_active) else q
  sortByName q

/-- `get_category` handler (`app/routers/category.py` lines 91-119). -/
def get_category (S : Store) (category_id : Int) : Except HTTPError Category :=
  match S.categories.find? (fun c => c.id == category_id) with
  | none => .error ⟨404, "Category not found", []⟩
  | some c => .ok c

/-- `create_expense` handler (`app/routers/expense.py` lines 24-75). -/
def create_expense (S : Store) (caller_id : Int) (d : ExpenseCreate) :
    Except HTTPError Expense × Store :=
  match S.categories.find? (fun c => c.id == d.category_id) with
  | none =>
    (.error ⟨404, "Category with id " ++ toString d.category_id ++ " not found", []⟩, S)
  | some category =>
    if !category.is_active then
      (.error ⟨400, "Cannot create expense with inactive category", []⟩, S)
    else
      let new_expense : Expense :=
        ⟨S.nextExpenseId, d.amount, d.category_id, d.description, d.date,
         d.notes, caller_id⟩
      (.ok new_expense,
       { S with expenses := S.expenses ++ [new_expense],
                nextExpenseId := S.nextExpenseId + 1 })

/-- The filter chain of `get_user_expenses` (`app/routers/expense.py` lines
110-127), before ordering and pagination. Note that `if category_id:` in the
source is Python truthiness, false both for `None` and for `0`, while the
amount filters test `is not None`; the date filters use truthiness too, but a
`date` object is always truthy. -/
def filteredExpenses (S : Store) (caller_id : Int) (category_id : Option Int)
    (start_date end_date : Option Nat) (min_amount max_amount : Option Rat) :
    List Expense :=
  let q := S.expenses.filter (fun e => e.user_id == caller_id)
  let q := match category_id with
    | some cid => if cid != 0 then q.filter (fun e => e.category_id == cid) else q
    | none => q
  let q := match start_date with
    | some sd => q.filter (fun e => sd ≤ e.date)
    | none => q
  let q := match end_date with
    | some ed => q.filter (fun e => e.date ≤ ed)
    | none => q
  let q := match min_amount with
    | some mn => q.filter (fun e => mn ≤ e.amount)
    | none => q
  match max_amount with
  | some mx => q.filter (fun e => e.amount ≤ mx)
  | none => q

/-- Sort expenses by date descending, most recent first, stable on the
store's natural retrieval order (`query.order_by(Expense.date.desc())`). -/
def sortByDateDesc (l : List Expense) : List Expense :=
  sortBy (fun x e => decide (e.date < x.date)) l

/-- `get_user_expenses` handler (`app/routers/expense.py` lines 78-132):
filter, order by date descending, then `offset(skip).limit(limit)`. -/
def get_user_expenses (S : Store) (caller_id : Int) (skip limit : Nat)
    (category_id : Option Int) (start_date end_date : Option Nat)
    (min_amount max_amount : Option Rat) : List Expense :=
  ((sortByDateDesc
      (filteredExpenses S caller_id category_id start_date end_date
        min_amount max_amount)).drop skip).take limit

/-- `get_expense` handler (`app/routers/expense.py` lines 135-168). -/
def get_expense (S : Store) (caller_id : Int) (expense_id : Int) :
    Except HTTPError Expense :=
  match S.expenses.find? (fun e => e.id == expense_id && e.user_id == caller_id) with
  | none => .error expenseNotFoundErr
  | some e => .ok e

/-- Applying `setattr(expense, field, value)` for each field present in
`model_dump(exclude_unset=True)` (`app/routers/expense.py` lines 222-225). -/
def applyUpdate (e : Expense) (u : ExpenseUpdate) : Expense :=
  { e with
    amount := u.amount.getD e.amount
    category_id := u.category_id.getD e.category_id
    description := u.description.getD e.description
    date := u.date.getD e.date
    notes := u.notes.getD e.notes }

/-- The commit tail of `update_expense` (`app/routers/expense.py` lines
222-228): apply the supplied fields to the row and commit. -/
def commitUpdate (S : Store) (e : Expense) (u : ExpenseUpdate) :
    Except HTTPError Expense × Store :=
  (.ok (applyUpdate e u),
   { S with expenses :=
       S.expenses.map (fun x => if x.id == e.id then applyUpdate x u else x) })

/-- `update_expense` handler (`app/routers/expense.py` lines 171-230). -/
def update_expense (S : Store) (caller_id : Int) (expense_id : Int)
    (u : ExpenseUpdate) : Except HTTPError Expense × Store :=
  match S.expenses.find? (fun e => e.id == expense_id && e.user_id == caller_id) with
  | none => (.error expenseNotFoundErr, S)
  | some e =>
    match u.category_id with
    | none => commitUpdate S e u
    | some cid =>
      match S.categories.find? (fun c => c.id == cid) with
      | none =>
        (.error ⟨404, "Category with id " ++ toString cid ++ " not found", []⟩, S)
      | some category =>
        if !category.is_active then
          (.error ⟨400, "Cannot update expense with inactive category", []⟩, S)
        else commitUpdate S e u

/-- `delete_expense` handler (`app/routers/expense.py` lines 233-266). -/
def delete_expense (S : Store) (caller_id : Int) (expense_id : Int) :
    Except HTTPError Unit × Store :=
  match S.expenses.find? (fun e => e.id == expense_id && e.user_id == caller_id) with
  | none => (.error expenseNotFoundErr, S)
  | some e =>
    (.ok (), { S with expenses := S.expenses.eraseP (fun x => x.id == e.id) })

/-- The update body that supplies no fields at all. -/
def emptyUpdate : ExpenseUpdate := ⟨none, none, none, none, none⟩

/-- Follows the spec's words, for comparison with `get_user_expenses`: an
expense matches when it belongs to the caller and satisfies the conjunction
of all supplied filters — exact category id match, date within the supplied
bounds, amount within the supplied bounds; omitted filters impose no
constraint. -/
def specListFilter (caller_id : Int) (category_id : Option Int)
    (start_date end_date : Option Nat) (min_amount max_amount : Option Rat)
    (e : Expense) : Bool :=
  e.user_id == caller_id &&
  (match category_id with | some c => e.category_id == c | none => true) &&
  (match start_date with | some d => decide (d ≤ e.date) | none => true) &&
  (match end_date with | some d => decide (e.date ≤ d) | none => true) &&
  (match min_amount with | some m => decide (m ≤ e.amount) | none => true) &&
  (match max_amount with | some m => decide (e.amount ≤ m) | none => true)

/-! ### Lemmas about the insertion sort -/

theorem insertSorted_perm {α : Type} (skip : α → α → Bool) (a : α) (l : List α) :
    (insertSorted skip a l).Perm (a :: l) := by
  induction l with
  | nil => exact List.Perm.refl _
  | cons x xs ih =>
    simp only [insertSorted]
    split
    · exact (List.Perm.cons x ih).trans (List.Perm.swap a x xs)
    · exact List.Perm.refl _

theorem sortBy_perm {α : Type} (skip : α → α → Bool) (l : List α) :
    (sortBy skip l).Perm l := by
  induction l with
  | nil => exact List.Perm.refl _
  | cons x xs ih =>
    exact (insertSorted_perm skip x (sortBy skip xs)).trans (List.Perm.cons x ih)

theorem mem_insertSorted {α : Type} (skip : α → α → Bool) (a y : α) (l : List α) :
    y ∈ insertSorted skip a l ↔ y = a ∨ y ∈ l := by
  rw [(insertSorted_perm skip a l).mem_iff, List.mem_cons]

theorem insertSorted_pairwise {α : Type} (skip : α → α → Bool) (R : α → α → Prop)
    (htrans : ∀ a b c, R a b → R b c → R a c)
    (hskip : ∀ x a, skip x a = true → R x a)
    (hnskip : ∀ x a, skip x a = false → R a x)
    (a : α) (l : List α) (hl : l.Pairwise R) :
    (insertSorted skip a l).Pairwise R := by
  induction l with
  | nil => simp [insertSorted]
  | cons x xs ih =>
    rw [List.pairwise_cons] at hl
    obtain ⟨hx, hxs⟩ := hl
    simp only [insertSorted]
    split
    · rename_i hsk
      rw [List.pairwise_cons]
      refine ⟨?_, ih hxs⟩
      intro y hy
      rcases (mem_insertSorted skip a y xs).1 hy with h | h
      · rw [h]; exact hskip x a hsk
      · exact hx y h
    · rename_i hsk
      rw [Bool.not_eq_true] at hsk
      rw [List.pairwise_cons]
      refine ⟨?_, List.pairwise_cons.2 ⟨hx, hxs⟩⟩
      intro y hy
      rcases List.mem_cons.1 hy with h | h
      · rw [h]; exact hnskip x a hsk
      · exact htrans a x y (hnskip x a hsk) (hx y h)

theorem sortBy_pairwise {α : Type} (skip : α → α → Bool) (R : α → α → Prop)
    (htrans : ∀ a b c, R a b → R b c → R a c)
    (hskip : ∀ x a, skip x a = true → R x a)
    (hnskip : ∀ x a, skip x a = false → R a x)
    (l : List α) : (sortBy skip l).Pairwise R := by
  induction l with
  | nil => simp [sortBy]
  | cons x xs ih => exact insertSorted_pairwise skip R htrans hskip hnskip x _ ih

theorem sortByDateDesc_perm (l : List Expense) : (sortByDateDesc l).Perm l :=
  sortBy_perm _ l

theorem sortByDateDesc_pairwise (l : List Expense) :
    (sortByDateDesc l).Pairwise (fun a b => b.date ≤ a.date) := by
  unfold sortByDateDesc
  apply sortBy_pairwise (fun x e : Expense => decide (e.date < x.date))
    (fun a b : Expense => b.date ≤ a.date)
  · intro a b c h1 h2; exact le_trans h2 h1
  · intro x a h; exact le_of_lt (of_decide_eq_true h)
  · intro x a h; exact le_of_not_lt (of_decide_eq_false h)

theorem sortByName_perm (l : List Category) : (sortByName l).Perm l :=
  sortBy_perm _ l

theorem sortByName_pairwise (l : List Category) :
    (sortByName l).Pairwise (fun a b => a.name ≤ b.name) := by
  unfold sortByName
  apply sortBy_pairwise (fun x c : Category => decide (x.name ≤ c.name))
    (fun a b : Category => a.name ≤ b.name)
  · intro a b c h1 h2; exact le_trans h1 h2
  · intro x a h; exact of_decide_eq_true h
  · intro x a h; exact le_of_not_le (of_decide_eq_false h)

/-! ### Lemmas about the filter chain -/

theorem filter_filter_and {α : Type} (l : List α) (p q : α → Bool) :
    (l.filter p).filter q = l.filter (fun a => p a && q a) := by
  induction l with
  | nil => rfl
  | cons x xs ih =>
    by_cases hp : p x
    · by_cases hq : q x <;> simp [List.filter_cons, hp, hq, ih]
    · simp [List.filter_cons, hp, ih]

theorem expense_find?_eq_none (S : Store) (caller eid : Int)
    (h : ∀ e ∈ S.expenses, e.id = eid → e.user_id ≠ caller) :
    S.expenses.find? (fun e => e.id == eid && e.user_id == caller) = none := by
  rw [List.find?_eq_none]
  intro x hx
  simp only [Bool.and_eq_true, beq_iff_eq, not_and]
  intro h1 h2
  exact h x hx h1 h2

/-- A supplied `category_id` of `0` is falsy in Python, so the handler builds
the same query as when the filter is omitted. -/
theorem filteredExpenses_zero_cat (S : Store) (caller : Int)
    (sd ed : Option Nat) (mn mx : Option Rat) :
    filteredExpenses S caller (some 0) sd ed mn mx =
      filteredExpenses S caller none sd ed mn mx := rfl

/-- With a nonzero (or omitted) category filter, the filter chain computes
exactly the conjunction of the supplied filter predicates. -/
theorem filteredExpenses_eq_spec (S : Store) (caller : Int) (cat : Option Int)
    (sd ed : Option Nat) (mn mx : Option Rat)
    (hcat : ∀ c ∈ cat, c ≠ 0) :
    filteredExpenses S caller cat sd ed mn mx =
      S.expenses.filter (specListFilter caller cat sd ed mn mx) := by
  rcases cat with _ | cid
  · rcases sd with _ | sdv <;> rcases ed with _ | edv <;>
      rcases mn with _ | mnv <;> rcases mx with _ | mxv <;>
      (unfold filteredExpenses
       simp only [filter_filter_and]
       apply List.filter_congr
       intro x _
       simp [specListFilter, Bool.and_assoc])
  · have hc : (cid != 0) = true := by
      have := hcat cid rfl
      simpa [bne_iff_ne] using this
    rcases sd with _ | sdv <;> rcases ed with _ | edv <;>
      rcases mn with _ | mnv <;> rcases mx with _ | mxv <;>
      (unfold filteredExpenses
       simp only [hc, if_true, filter_filter_and]
       apply List.filter_congr
       intro x _
       simp [specListFilter, Bool.and_assoc])

theorem mem_filteredExpenses_user (S : Store) (caller : Int) (cat : Option Int)
    (sd ed : Option Nat) (mn mx : Option Rat) (e : Expense)
    (he : e ∈ filteredExpenses S caller cat sd ed mn mx) : e.user_id = caller := by
  have key : ∀ (cat' : Option Int), (∀ c ∈ cat', c ≠ 0) →
      e ∈ filteredExpenses S caller cat' sd ed mn mx → e.user_id = caller := by
    intro cat' hc hm
    rw [filteredExpenses_eq_spec S caller cat' sd ed mn mx hc] at hm
    have := (List.mem_filter.1 hm).2
    simp only [specListFilter, Bool.and_eq_true, beq_iff_eq] at this
    exact this.1.1.1.1.1
  rcases cat with _ | cid
  · exact key none (by simp) he
  · by_cases hz : cid = 0
    · subst hz
      rw [filteredExpenses_zero_cat] at he
      exact key none (by simp) he
    · exact key (some cid) (by simpa using hz) he

/-! ### Concrete sample data for evaluating the theorems -/

/-- A sample user (id 1). -/
def sampleUser : User := ⟨1, "alice@example.com", "alice", "hashA", true, false⟩

/-- A second sample user (id 2). -/
def sampleUserB : User := ⟨2, "bob@example.com", "bob", "hashB", true, false⟩

/-- A sample active category (id 1). -/
def sampleCategory : Category := ⟨1, "Food", none, none, none, true⟩

/-- A sample expense of user 1 in category 1. -/
def sampleExpense : Expense := ⟨1, 10, 1, "lunch", 5, none, 1⟩

/-- A sample store with two users, one category, one expense. -/
def sampleStore : Store :=
  ⟨[sampleUser, sampleUserB], [sampleCategory], [sampleExpense], 3, 2, 2⟩

/-- The claim set of a well-formed, unexpired access token for user 1. -/
def sampleAccessPayload : TokenPayload :=
  ⟨some "1", some "alice@example.com", some "access"⟩

/-! ### Claims -/

/-- C1: for an authenticated caller and an expense id that either does not
exist or belongs to a different user, Get, Update and Delete all fail with
the same 404 "Expense not found" error value (so the two causes are
indistinguishable) and leave the store unchanged; and List never returns an
expense whose owner is not the caller, regardless of the filters supplied. -/
theorem c1_owner_scoping (S : Store) (caller eid : Int) (u : ExpenseUpdate)
    (h : ∀ e ∈ S.expenses, e.id = eid → e.user_id ≠ caller) :
    get_expense S caller eid = .error expenseNotFoundErr ∧
    update_expense S caller eid u = (.error expenseNotFoundErr, S) ∧
    delete_expense S caller eid = (.error expenseNotFoundErr, S) ∧
    ∀ skip limit cat sd ed mn mx e,
      e ∈ get_user_expenses S caller skip limit cat sd ed mn mx →
      e.user_id = caller := by
  have hf := expense_find?_eq_none S caller eid h
  refine ⟨?_, ?_, ?_, ?_⟩
  · unfold get_expense; rw [hf]
  · unfold update_expense; rw [hf]
  · unfold delete_expense; rw [hf]
  · intro skip limit cat sd ed mn mx e he
    unfold get_user_expenses at he
    exact mem_filteredExpenses_user S caller cat sd ed mn mx e
      ((sortByDateDesc_perm _).mem_iff.1
        (List.mem_of_mem_drop (List.mem_of_mem_take he)))

/-- Evaluates C1 concretely: user 2 acting on user 1's expense id 1. -/
theorem c1_owner_scoping_witness :
    get_expense sampleStore 2 1 = .error expenseNotFoundErr ∧
    update_expense sampleStore 2 1 emptyUpdate = (.error expenseNotFoundErr, sampleStore) ∧
    delete_expense sampleStore 2 1 = (.error expenseNotFoundErr, sampleStore) :=
  have h := c1_owner_scoping sampleStore 2 1 emptyUpdate (by decide)
  ⟨h.1, h.2.1, h.2.2.1⟩

/-- C2 counterexample: with one expense of category 1 owned by user 1,
supplying `category_id = 0` makes the handler drop the category filter
entirely (`if category_id:` is Python truthiness, false at 0), so the List
operation returns the expense even though no expense has category id 0 —
the result differs from the conjunction of the supplied filters. -/
theorem c2_counterexample :
    get_user_expenses sampleStore 1 0 100 (some 0) none none none none ≠
      sampleStore.expenses.filter (specListFilter 1 (some 0) none none none none) := by
  decide

/-- C2 (amended): for every owner and every combination of supplied filters
whose supplied category id, if any, is nonzero — a supplied category id of 0
is treated as if the category filter were omitted — the List operation
returns exactly the owner's expenses satisfying the conjunction of all
supplied filters (up to the date ordering), provided the page is large
enough to hold them and no records are skipped. -/
theorem c2_filters_conjunctive (S : Store) (caller : Int) (cat : Option Int)
    (sd ed : Option Nat) (mn mx : Option Rat) (limit : Nat)
    (hcat : ∀ c ∈ cat, c ≠ 0)
    (hlim : (S.expenses.filter (specListFilter caller cat sd ed mn mx)).length ≤ limit) :
    (get_user_expenses S caller 0 limit cat sd ed mn mx).Perm
      (S.expenses.filter (specListFilter caller cat sd ed mn mx)) := by
  unfold get_user_expenses
  rw [List.drop_zero, filteredExpenses_eq_spec S caller cat sd ed mn mx hcat,
    List.take_of_length_le]
  · exact sortByDateDesc_perm _
  · rw [(sortByDateDesc_perm _).length_eq]
    exact hlim

/-- Evaluates the amended C2 concretely: category filter 1 supplied. -/
theorem c2_filters_conjunctive_witness :
    (get_user_expenses sampleStore 1 0 100 (some 1) none none none none).Perm
      (sampleStore.expenses.filter (specListFilter 1 (some 1) none none none none)) :=
  c2_filters_conjunctive sampleStore 1 (some 1) none none none none 100
    (by decide) (by decide)

/-- C4: the login failure for an unknown email and the failure for a wrong
password are one and the same 401 error value (status, body and headers
identical), while a correct password on an inactive account fails with the
distinct 403 error. -/
theorem c4_login_enumeration (verify : String → String → Bool)
    (mkA mkR : String → String → String) (S : Store) (email pw : String) :
    (S.users.find? (fun u => u.email == email) = none →
       login verify mkA mkR S ⟨email, pw⟩ = .error incorrectCredentialsErr) ∧
    (∀ u, S.users.find? (fun u => u.email == email) = some u →
       verify pw u.hashed_password = false →
       login verify mkA mkR S ⟨email, pw⟩ = .error incorrectCredentialsErr) ∧
    (∀ u, S.users.find? (fun u => u.email == email) = some u →
       verify pw u.hashed_password = true → u.is_active = false →
       login verify mkA mkR S ⟨email, pw⟩ = .error inactiveAccountErr) ∧
    inactiveAccountErr ≠ incorrectCredentialsErr ∧
    incorrectCredentialsErr.status = 401 ∧ inactiveAccountErr.status = 403 := by
  refine ⟨?_, ?_, ?_, by decide, rfl, rfl⟩
  · intro hf; unfold login; rw [hf]
  · intro u hf hv; unfold login; rw [hf]; simp [hv]
  · intro u hf hv ha; unfold login; rw [hf]; simp [hv, ha]

/-- Evaluates C4 concretely: wrong password for an existing user. -/
theorem c4_login_enumeration_witness :
    login (fun _ _ => false) (fun _ _ => "a") (fun _ _ => "r") sampleStore
        ⟨"alice@example.com", "wrong"⟩ = .error incorrectCredentialsErr :=
  (c4_login_enumeration (fun _ _ => false) (fun _ _ => "a") (fun _ _ => "r")
      sampleStore "alice@example.com" "wrong").2.1 sampleUser (by decide) rfl

/-- C5: a token that decodes to a payload whose `token_type` is not
"refresh" — for instance a well-formed, unexpired access token — makes the
Refresh operation fail with a 401 error, and no tokens are issued. -/
theorem c5_refresh_rejects_nonrefresh (decode : String → Option TokenPayload)
    (mkA mkR : String → String → String) (S : Store) (tok : String)
    (p : TokenPayload) (hdec : decode tok = some p)
    (hty : p.token_type ≠ some "refresh") :
    refreshToken decode mkA mkR S tok =
      .error ⟨401, "Invalid token type. Refresh token required.",
              [("WWW-Authenticate", "Bearer")]⟩ := by
  unfold refreshToken
  rw [hdec]
  have hb : (p.token_type != some "refresh") = true := bne_iff_ne.mpr hty
  simp [hb]

/-- Evaluates C5 concretely: an access-token payload is rejected. -/
theorem c5_refresh_rejects_nonrefresh_witness :
    refreshToken (fun _ => some sampleAccessPayload) (fun _ _ => "a")
        (fun _ _ => "r") sampleStore "tok" =
      .error ⟨401, "Invalid token type. Refresh token required.",
              [("WWW-Authenticate", "Bearer")]⟩ :=
  c5_refresh_rejects_nonrefresh (fun _ => some sampleAccessPayload)
    (fun _ _ => "a") (fun _ _ => "r") sampleStore "tok" sampleAccessPayload
    rfl (by decide)

/-- C3: for an expense of the caller's, Update changes exactly the supplied
fields and leaves every unsupplied field (and `id` and `user_id`) unchanged,
and the category is re-validated (existence then active state) if and only
if `category_id` is among the supplied fields. -/
theorem c3_sparse_update (S : Store) (caller eid : Int) (u : ExpenseUpdate) (e : Expense)
    (hfind : S.expenses.find? (fun x => x.id == eid && x.user_id == caller) = some e) :
    (∀ e2, (update_expense S caller eid u).1 = .ok e2 →
       e2.id = e.id ∧ e2.user_id = e.user_id ∧
       (u.amount = none → e2.amount = e.amount) ∧
       (∀ a, u.amount = some a → e2.amount = a) ∧
       (u.category_id = none → e2.category_id = e.category_id) ∧
       (∀ c, u.category_id = some c → e2.category_id = c) ∧
       (u.description = none → e2.description = e.description) ∧
       (∀ s, u.description = some s → e2.description = s) ∧
       (u.date = none → e2.date = e.date) ∧
       (∀ dt, u.date = some dt → e2.date = dt) ∧
       (u.notes = none → e2.notes = e.notes) ∧
       (∀ n, u.notes = some n → e2.notes = n)) ∧
    (u.category_id = none →
       (update_expense S caller eid u).1 = .ok (applyUpdate e u)) ∧
    (∀ cid, u.category_id = some cid →
       (S.categories.find? (fun c => c.id == cid) = none →
          (update_expense S caller eid u).1 =
            .error ⟨404, "Category with id " ++ toString cid ++ " not found", []⟩) ∧
       (∀ c, S.categories.find? (fun c => c.id == cid) = some c →
          (c.is_active = false →
             (update_expense S caller eid u).1 =
               .error ⟨400, "Cannot update expense with inactive category", []⟩) ∧
          (c.is_active = true →
             (update_expense S caller eid u).1 = .ok (applyUpdate e u)))) := by
  have hshape : ∀ e2, (update_expense S caller eid u).1 = .ok e2 →
      e2 = applyUpdate e u := by
    intro e2 h
    unfold update_expense at h
    rcases hc : u.category_id with _ | cid
    · simp only [hfind, hc, commitUpdate] at h
      exact (Except.ok.inj h).symm
    · rcases hf2 : S.categories.find? (fun c => c.id == cid) with _ | c
      · simp only [hfind, hc, hf2] at h
        simp at h
      · by_cases hact : c.is_active
        · simp only [hfind, hc, hf2, hact, Bool.not_true, Bool.false_eq_true,
            if_false, commitUpdate] at h
          exact (Except.ok.inj h).symm
        · simp only [Bool.not_eq_true] at hact
          simp only [hfind, hc, hf2, hact] at h
          simp at h
  refine ⟨?_, ?_, ?_⟩
  · intro e2 h
    have he2 := hshape e2 h
    subst he2
    refine ⟨rfl, rfl, ?_, ?_, ?_, ?_, ?_, ?_, ?_, ?_, ?_, ?_⟩ <;>
      first
        | (intro hnone; simp [applyUpdate, hnone])
        | (intro v hv; simp [applyUpdate, hv])
  · intro hc
    unfold update_expense
    simp only [hfind, hc, commitUpdate]
  · intro cid hc
    refine ⟨?_, ?_⟩
    · intro hf2
      unfold update_expense
      simp only [hfind, hc, hf2]
    · intro c hf2
      refine ⟨?_, ?_⟩
      · intro hact
        unfold update_expense
        simp only [hfind, hc, hf2, hact]
        simp
      · intro hact
        unfold update_expense
        simp only [hfind, hc, hf2, hact, commitUpdate]
        simp

/-- Evaluates C3 concretely: updating only the amount. -/
theorem c3_sparse_update_witness :
    (update_expense sampleStore 1 1 ⟨some 25, none, none, none, none⟩).1 =
      .ok (applyUpdate sampleExpense ⟨some 25, none, none, none, none⟩) :=
  (c3_sparse_update sampleStore 1 1 ⟨some 25, none, none, none, none⟩
      sampleExpense (by decide)).2.1 rfl

/-- C10: calling Update with a body that supplies no fields at all succeeds
and returns the expense completely unchanged, with the store unchanged. -/
theorem c10_empty_update (S : Store) (caller eid : Int) (e : Expense)
    (hfind : S.expenses.find? (fun x => x.id == eid && x.user_id == caller) = some e) :
    update_expense S caller eid emptyUpdate = (.ok e, S) := by
  unfold update_expense
  rw [hfind]
  show commitUpdate S e emptyUpdate = (.ok e, S)
  unfold commitUpdate
  have happ : ∀ x : Expense, applyUpdate x emptyUpdate = x := fun _ => rfl
  have hfn : (fun x : Expense => if x.id == e.id then applyUpdate x emptyUpdate else x)
      = fun x => x := by
    funext x
    rw [happ, ite_self]
  rw [happ, hfn, List.map_id']

/-- Evaluates C10 concretely. -/
theorem c10_empty_update_witness :
    update_expense sampleStore 1 1 emptyUpdate = (.ok sampleExpense, sampleStore) :=
  c10_empty_update sampleStore 1 1 sampleExpense (by decide)

/-- C6: List orders the matching expenses by date descending, then drops the
first `skip` records and returns at most `limit` records: the result's
length is `min limit (n - skip)` and its `i`-th element is the
`(skip + i)`-th element of the date-descending ordering, which is a
permutation of the matching records. -/
theorem c6_pagination (S : Store) (caller : Int) (skip limit : Nat)
    (cat : Option Int) (sd ed : Option Nat) (mn mx : Option Rat)
    (h1 : 1 ≤ limit) (h2 : limit ≤ 500) :
    (sortByDateDesc (filteredExpenses S caller cat sd ed mn mx)).Pairwise
        (fun a b => b.date ≤ a.date) ∧
    (sortByDateDesc (filteredExpenses S caller cat sd ed mn mx)).Perm
        (filteredExpenses S caller cat sd ed mn mx) ∧
    (get_user_expenses S caller skip limit cat sd ed mn mx).length =
      min limit
        ((sortByDateDesc (filteredExpenses S caller cat sd ed mn mx)).length - skip) ∧
    ∀ (i : Nat)
      (hi : i < (get_user_expenses S caller skip limit cat sd ed mn mx).length)
      (hq : skip + i <
        (sortByDateDesc (filteredExpenses S caller cat sd ed mn mx)).length),
      (get_user_expenses S caller skip limit cat sd ed mn mx).get ⟨i, hi⟩ =
        (sortByDateDesc (filteredExpenses S caller cat sd ed mn mx)).get
          ⟨skip + i, hq⟩ := by
  refine ⟨sortByDateDesc_pairwise _, sortByDateDesc_perm _, ?_, ?_⟩
  · unfold get_user_expenses
    rw [List.length_take, List.length_drop]
  · intro i hi hq
    simp only [List.get_eq_getElem]
    unfold get_user_expenses
    rw [List.getElem_take, List.getElem_drop]

/-- The ten expenses of the C6 concrete check, dates 1..10. -/
def c6Expense (k : Nat) : Expense := ⟨(k : Int), 10, 1, "e", k, none, 1⟩

/-- A store with ten expenses for user 1. -/
def c6Store : Store :=
  ⟨[sampleUser], [sampleCategory],
   [c6Expense 1, c6Expense 2, c6Expense 3, c6Expense 4, c6Expense 5,
    c6Expense 6, c6Expense 7, c6Expense 8, c6Expense 9, c6Expense 10], 2, 2, 11⟩

/-- Evaluates C6 concretely: ten expenses, skip 5, limit 3. -/
theorem c6_pagination_witness :
    (get_user_expenses c6Store 1 5 3 none none none none none).length =
      min 3 ((sortByDateDesc (filteredExpenses c6Store 1 none none none none none)).length - 5) :=
  (c6_pagination c6Store 1 5 3 none none none none none
    (by decide) (by decide)).2.2.1

/-- C7: creating an expense against an absent category fails 404, against an
inactive category fails 400; an inactive category is excluded from the
category list unless `include_inactive` is requested, in which case it is
included; the category list is ordered by name ascending either way. -/
theorem c7_category_validation (S : Store) (caller : Int) (d : ExpenseCreate)
    (c : Category) (include_inactive : Bool) :
    ((∀ x ∈ S.categories, x.id ≠ d.category_id) →
       create_expense S caller d =
         (.error ⟨404, "Category with id " ++ toString d.category_id ++ " not found", []⟩,
          S)) ∧
    (∀ x, S.categories.find? (fun c => c.id == d.category_id) = some x →
       x.is_active = false →
       create_expense S caller d =
         (.error ⟨400, "Cannot create expense with inactive category", []⟩, S)) ∧
    (c ∈ S.categories → c.is_active = false → c ∉ get_categories S false) ∧
    (c ∈ S.categories → c ∈ get_categories S true) ∧
    (get_categories S include_inactive).Pairwise (fun a b => a.name ≤ b.name) := by
  refine ⟨?_, ?_, ?_, ?_, ?_⟩
  · intro h
    have hf : S.categories.find? (fun c => c.id == d.category_id) = none := by
      rw [List.find?_eq_none]
      intro x hx
      simp only [beq_iff_eq]
      exact h x hx
    unfold create_expense
    rw [hf]
  · intro x hf hact
    unfold create_expense
    rw [hf]
    simp [hact]
  · intro hmem hact hcon
    have h1 : c ∈ S.categories.filter (fun c => c.is_active) :=
      (sortByName_perm (S.categories.filter (fun c => c.is_active))).mem_iff.1 hcon
    have h2 := (List.mem_filter.1 h1).2
    rw [hact] at h2
    exact Bool.false_ne_true h2
  · intro hmem
    exact (sortByName_perm S.categories).mem_iff.2 hmem
  · cases include_inactive <;> exact sortByName_pairwise _

/-- A deactivated category used by the C7 concrete check. -/
def inactiveCategory : Category := ⟨2, "Old", none, none, none, false⟩

/-- A store whose category 2 is inactive. -/
def c7Store : Store :=
  ⟨[sampleUser], [sampleCategory, inactiveCategory], [], 2, 3, 1⟩

/-- Evaluates C7 concretely: create against the inactive category fails 400. -/
theorem c7_category_validation_witness :
    create_expense c7Store 1 ⟨10, 2, "x", 5, none⟩ =
      (.error ⟨400, "Cannot create expense with inactive category", []⟩, c7Store) :=
  (c7_category_validation c7Store 1 ⟨10, 2, "x", 5, none⟩ inactiveCategory
      false).2.1 inactiveCategory (by decide) rfl

/-- C8: every failing run of a mutating operation (register, create
category, create / update / delete expense) returns the store unchanged —
no record is inserted, modified or deleted on any error path. -/
theorem c8_no_partial_writes (hash : String → String) (S : Store)
    (dreg : UserRegister) (dcat : CategoryCreate) (caller : Int)
    (dexp : ExpenseCreate) (eid : Int) (u : ExpenseUpdate) :
    (∀ err, (register hash S dreg).1 = .error err → (register hash S dreg).2 = S) ∧
    (∀ err, (create_category S dcat).1 = .error err → (create_category S dcat).2 = S) ∧
    (∀ err, (create_expense S caller dexp).1 = .error err →
       (create_expense S caller dexp).2 = S) ∧
    (∀ err, (update_expense S caller eid u).1 = .error err →
       (update_expense S caller eid u).2 = S) ∧
    (∀ err, (delete_expense S caller eid).1 = .error err →
       (delete_expense S caller eid).2 = S) := by
  refine ⟨?_, ?_, ?_, ?_, ?_⟩ <;> intro err h
  · unfold register at h ⊢
    rcases h1 : S.users.find? (fun u => u.email == dreg.email) with _ | w
    · rcases h2 : S.users.find? (fun u => u.username == dreg.username) with _ | w2
      · simp only [h1, h2] at h
        simp at h
      · simp only [h1, h2]
    · simp only [h1]
  · unfold create_category at h ⊢
    rcases h1 : S.categories.find? (fun c => c.name == dcat.name) with _ | w
    · simp only [h1] at h
      simp at h
    · simp only [h1]
  · unfold create_expense at h ⊢
    rcases h1 : S.categories.find? (fun c => c.id == dexp.category_id) with _ | w
    · simp only [h1]
    · by_cases hact : w.is_active
      · simp only [h1, hact, Bool.not_true, Bool.false_eq_true, if_false] at h
        simp at h
      · simp only [Bool.not_eq_true] at hact
        simp [h1, hact]
  · unfold update_expense at h ⊢
    rcases h1 : S.expenses.find? (fun e => e.id == eid && e.user_id == caller)
        with _ | e
    · simp only [h1]
    · rcases h2 : u.category_id with _ | cid
      · simp only [h1, h2, commitUpdate] at h
        simp at h
      · rcases h3 : S.categories.find? (fun c => c.id == cid) with _ | w
        · simp only [h1, h2, h3]
        · by_cases hact : w.is_active
          · simp only [h1, h2, h3, hact, Bool.not_true, Bool.false_eq_true,
              if_false, commitUpdate] at h
            simp at h
          · simp only [Bool.not_eq_true] at hact
            simp [h1, h2, h3, hact]
  · unfold delete_expense at h ⊢
    rcases h1 : S.expenses.find? (fun e => e.id == eid && e.user_id == caller)
        with _ | e
    · simp only [h1]
    · simp only [h1] at h
      simp at h

/-- Evaluates C8 concretely: a duplicate-email registration leaves the store
unchanged. -/
theorem c8_no_partial_writes_witness :
    (register (fun s => s) sampleStore
        ⟨"alice@example.com", "newname", "password123"⟩).2 = sampleStore :=
  (c8_no_partial_writes (fun s => s) sampleStore
      ⟨"alice@example.com", "newname", "password123"⟩ ⟨"X", none, none, none⟩ 1
      ⟨10, 1, "x", 5, none⟩ 1 emptyUpdate).1
    ⟨400, "Email already registered", []⟩ rfl

/-- C9: registering with an email or username already taken fails with a
400 duplicate error and creates no user; with both fresh it succeeds — for
every password — and the new user is persisted with active = true and
verified = false; the response is a function of email and username only,
never of the password or its hash. -/
theorem c9_registration (hash hash2 : String → String) (S : Store)
    (d d2 : UserRegister) :
    ((∃ w ∈ S.users, w.email = d.email ∨ w.username = d.username) →
       (∃ msg, (register hash S d).1 = .error ⟨400, msg, []⟩) ∧
       (register hash S d).2 = S) ∧
    ((∀ w ∈ S.users, w.email ≠ d.email ∧ w.username ≠ d.username) →
       ∃ nu, (register hash S d).1 =
           .ok ⟨nu.id, nu.email, nu.username, nu.is_active, nu.is_verified⟩ ∧
         (register hash S d).2.users = S.users ++ [nu] ∧
         nu.is_active = true ∧ nu.is_verified = false ∧
         nu.email = d.email ∧ nu.username = d.username) ∧
    (d2.email = d.email → d2.username = d.username →
       (register hash S d).1 = (register hash2 S d2).1) := by
  refine ⟨?_, ?_, ?_⟩
  · rintro ⟨w, hw, hdup⟩
    rcases h1 : S.users.find? (fun u => u.email == d.email) with _ | w1
    · have hne : ∀ x ∈ S.users, x.email ≠ d.email := by
        intro x hx
        have := List.find?_eq_none.1 h1 x hx
        simpa using this
      have huser : w.username = d.username := by
        rcases hdup with hd | hd
        · exact absurd hd (hne w hw)
        · exact hd
      have hsome : (S.users.find? (fun u => u.username == d.username)).isSome := by
        rw [List.find?_isSome]
        exact ⟨w, hw, by simp [huser]⟩
      rcases h2 : S.users.find? (fun u => u.username == d.username) with _ | w2
      · rw [h2] at hsome; simp at hsome
      · refine ⟨⟨"Username already taken", ?_⟩, ?_⟩ <;>
          (unfold register; rw [h1, h2])
    · refine ⟨⟨"Email already registered", ?_⟩, ?_⟩ <;>
        (unfold register; rw [h1])
  · intro hfresh
    have h1 : S.users.find? (fun u => u.email == d.email) = none := by
      rw [List.find?_eq_none]
      intro x hx
      simp only [beq_iff_eq]
      exact (hfresh x hx).1
    have h2 : S.users.find? (fun u => u.username == d.username) = none := by
      rw [List.find?_eq_none]
      intro x hx
      simp only [beq_iff_eq]
      exact (hfresh x hx).2
    refine ⟨⟨S.nextUserId, d.email, d.username, hash d.password, true, false⟩,
      ?_, ?_, rfl, rfl, rfl, rfl⟩ <;> (unfold register; rw [h1, h2])
  · intro he hu
    obtain ⟨e1, u1, p1⟩ := d
    obtain ⟨e2, u2, p2⟩ := d2
    simp only at he hu
    subst he
    subst hu
    unfold register
    simp only []
    rcases h1 : S.users.find? (fun u => u.email == e2) with _ | w1
    · simp only [h1]
      rcases h2 : S.users.find? (fun u => u.username == u2) with _ | w2
      · simp only [h2]
      · simp only [h2]
    · simp only [h1]

/-- Evaluates C9 concretely: fresh email and username succeed. -/
theorem c9_registration_witness :
    ∃ nu, (register (fun s => s) sampleStore
        ⟨"carol@example.com", "carol", "password123"⟩).1 =
          .ok ⟨nu.id, nu.email, nu.username, nu.is_active, nu.is_verified⟩ ∧
      (register (fun s => s) sampleStore
        ⟨"carol@example.com", "carol", "password123"⟩).2.users =
          sampleStore.users ++ [nu] ∧
      nu.is_active = true ∧ nu.is_verified = false ∧
      nu.email = "carol@example.com" ∧ nu.username = "carol" :=
  (c9_registration (fun s => s) (fun s => s) sampleStore
      ⟨"carol@example.com", "carol", "password123"⟩
      ⟨"carol@example.com", "carol", "password123"⟩).2.1 (by decide)

end ExpenseTracker
